import Mathlib

/-!
Shallow embedding of `sc2reader/objects.py` (participant normalization layer of the
sc2reader replay-analysis library) together with theorems settling the specification
claims about it.

Conventions of the embedding:
* Python dictionaries supplied as static configuration (`LOBBY_PROPERTIES`,
  `GATEWAY_LOOKUP`, `LOCALIZED_RACES`) are external read-only tables; they are
  modelled as association lists passed in as parameters.
* Python exceptions are modelled with `Except`: a `raise` (or a failing dict/index
  access) becomes `.error`.
* The mutable attribute dictionary built up by the chained `__init__` calls of
  `Entity`, `User` and `Player` is modelled as a record `PState`; each `__init__`
  is a state-passing assignment function, and the composed classes
  (`Participant`, `Computer`) chain them in the same order as the source.
* `hashlib.sha256(...).hexdigest()` is an external library primitive; it is
  modelled as a parameter `sha256hex : String → String` of `Team.hash`.
* Python strings are Lean `String`s; the handful of string primitives the source
  uses (`str.strip`, slicing `[::-1]`, `str.split`, `int(...)`) are embedded as
  structurally recursive functions over the character list so that they compute.
-/

/-! ### Generic string helpers (Python string primitives) -/

/-- Lexicographic comparison of character lists by code point, matching how Python
compares `str` values in `sorted(...)`. -/
def charListLe : List Char → List Char → Bool
  | [], _ => true
  | _ :: _, [] => false
  | a :: as, b :: bs => if a < b then true else if b < a then false else charListLe as bs

/-- `strLe s t` holds when `s` compares less-or-equal to `t` the way Python's
`sorted` orders strings (lexicographic by code point). -/
def strLe (s t : String) : Prop := charListLe s.data t.data = true

instance : DecidableRel strLe := fun _ _ => inferInstanceAs (Decidable (_ = true))

theorem charListLe_total : ∀ as bs, charListLe as bs = true ∨ charListLe bs as = true := by
  intro as
  induction as with
  | nil => intro bs; left; rfl
  | cons a as ih =>
    intro bs
    cases bs with
    | nil => right; rfl
    | cons b bs =>
      rcases lt_trichotomy a b with h | rfl | h
      · left; simp [charListLe, h]
      · rcases ih bs with h2 | h2
        · left; simp [charListLe, lt_irrefl, h2]
        · right; simp [charListLe, lt_irrefl, h2]
      · right; simp [charListLe, h]

theorem charListLe_antisymm : ∀ as bs, charListLe as bs = true → charListLe bs as = true →
    as = bs := by
  intro as
  induction as with
  | nil =>
    intro bs h1 h2
    cases bs with
    | nil => rfl
    | cons b bs => simp [charListLe] at h2
  | cons a as ih =>
    intro bs h1 h2
    cases bs with
    | nil => simp [charListLe] at h1
    | cons b bs =>
      rcases lt_trichotomy a b with h | rfl | h
      · simp [charListLe, h, lt_asymm h] at h2
      · simp only [charListLe, lt_irrefl, if_false] at h1 h2
        rw [ih bs h1 h2]
      · simp [charListLe, h, lt_asymm h] at h1

theorem charListLe_trans : ∀ as bs cs, charListLe as bs = true → charListLe bs cs = true →
    charListLe as cs = true := by
  intro as
  induction as with
  | nil => intro bs cs _ _; rfl
  | cons a as ih =>
    intro bs cs h1 h2
    cases bs with
    | nil => simp [charListLe] at h1
    | cons b bs =>
      cases cs with
      | nil => simp [charListLe] at h2
      | cons c cs =>
        rcases lt_trichotomy a b with hab | rfl | hab
        · rcases lt_trichotomy b c with hbc | rfl | hbc
          · simp [charListLe, lt_trans hab hbc]
          · simp [charListLe, hab]
          · simp [charListLe, hbc, lt_asymm hbc] at h2
        · simp only [charListLe, lt_irrefl, if_false] at h1
          rcases lt_trichotomy a c with hac | rfl | hac
          · simp [charListLe, hac]
          · simp only [charListLe, lt_irrefl, if_false] at h2 ⊢
            exact ih bs cs h1 h2
          · simp [charListLe, hac, lt_asymm hac] at h2
        · simp [charListLe, hab, lt_asymm hab] at h1

instance : IsTotal String strLe := ⟨fun a b => charListLe_total a.data b.data⟩

instance : IsTrans String strLe := ⟨fun a b c => charListLe_trans a.data b.data c.data⟩

instance : IsAntisymm String strLe :=
  ⟨fun a b h1 h2 => by
    cases a; cases b
    exact congrArg String.mk (charListLe_antisymm _ _ h1 h2)⟩

/-- Python's `sorted(...)` on a list of strings (by code point). -/
def sortStrings (l : List String) : List String := List.insertionSort strLe l

theorem sortStrings_perm_eq {l₁ l₂ : List String} (h : l₁.Perm l₂) :
    sortStrings l₁ = sortStrings l₂ :=
  List.eq_of_perm_of_sorted (r := strLe)
    (((List.perm_insertionSort _ l₁).trans h).trans (List.perm_insertionSort _ l₂).symm)
    (List.sorted_insertionSort _ l₁) (List.sorted_insertionSort _ l₂)

/-- Python's `sorted(...)` on a list of characters (equivalently, of the
one-character strings the source builds in `Team.lineup`). -/
def sortChars (l : List Char) : List Char := List.insertionSort (· ≤ ·) l

theorem sortChars_perm_eq {l₁ l₂ : List Char} (h : l₁.Perm l₂) :
    sortChars l₁ = sortChars l₂ :=
  List.eq_of_perm_of_sorted (r := (· ≤ ·))
    (((List.perm_insertionSort _ l₁).trans h).trans (List.perm_insertionSort _ l₂).symm)
    (List.sorted_insertionSort _ l₁) (List.sorted_insertionSort _ l₂)

/-- Python `value.strip(chars)`: removes characters of `chars` from BOTH ends of
the string (leading and trailing). -/
def pyStrip (chars : List Char) (s : String) : String :=
  ⟨((s.data.dropWhile (· ∈ chars)).reverse.dropWhile (· ∈ chars)).reverse⟩

/-- Python slicing `s[::-1]`: the reversed string. -/
def pyReverse (s : String) : String := ⟨s.data.reverse⟩

/-- The padding characters of `value.strip("\x00 ")` in `Attribute.__init__`. -/
def attrPadChars : List Char := ['\x00', ' ']

def pySplitAux (sep : Char) : List Char → List Char → List String
  | [], acc => [⟨acc.reverse⟩]
  | c :: rest, acc =>
      if c = sep then ⟨acc.reverse⟩ :: pySplitAux sep rest []
      else pySplitAux sep rest (c :: acc)

/-- Python `s.split(sep)` for a one-character separator. -/
def pySplit (sep : Char) (s : String) : List String := pySplitAux sep s.data []

def digitsToNat : List Char → Option Nat
  | [] => none
  | l => l.foldlM (fun acc c => if c.isDigit then some (acc * 10 + (c.toNat - 48)) else none) 0

/-- Python `int(s)` on the plain decimal strings this source feeds it
(an optional leading minus sign followed by digits); `none` models the
`ValueError` raised on anything else. -/
def pyInt (s : String) : Option Int :=
  match s.data with
  | '-' :: rest => (digitsToNat rest).map (fun n => -(n : Int))
  | l => (digitsToNat l).map (fun n => (n : Int))

/-! ### Input records (the namedtuples / dicts consumed by objects.py) -/

/-- `ColorData = namedtuple('ColorData',['a','r','g','b'])`. -/
structure ColorData where
  a : Int
  r : Int
  g : Int
  b : Int
deriving DecidableEq

/-- `BnetData = namedtuple('BnetData',['gateway','unknown2','subregion','uid'])`. -/
structure BnetData where
  gateway : Int
  unknown2 : Int
  subregion : Int
  uid : Int
deriving DecidableEq

/-- The slot-data dictionary consumed by `Entity.__init__` (the fields it reads).
`toon_handle` is `string|null` in the source; `none` models Python `None`. -/
structure SlotData where
  handicap : Int
  team_id : Int
  control : Int
  observe : Int
  toon_handle : Option String
deriving DecidableEq

/-- The init-data dictionary consumed by `User.__init__` (the fields it reads). -/
structure InitData where
  clan_tag : String
  name : String
  combined_race_levels : Int
  highest_league : Int
deriving DecidableEq

/-- The detail-data record consumed by `Player.__init__` (the fields it reads). -/
structure DetailData where
  result : Int
  race : String
  color : ColorData
  bnet : BnetData
  name : String
deriving DecidableEq

/-! ### Attribute (objects.py `Attribute.__init__`) -/

/-- The shape of the external `LOBBY_PROPERTIES` master table:
`attribute id ↦ (name, value-lookup table)`. -/
def AttrTable : Type := List (Int × (String × List (String × String)))

inductive AttrError where
  /-- `raise ValueError("Unknown attribute id: " + id)` for an id outside the table. -/
  | unknownAttribute (id : Int)
  /-- The `KeyError` raised by `lookup[...]` when the decoded key is absent. -/
  | unknownValue (id : Int) (key : String)
deriving DecidableEq

/-- The decoded attribute produced by a successful `Attribute.__init__`. -/
structure Attribute where
  header : Int
  id : Int
  player : Int
  name : String
  value : String
deriving DecidableEq

/-- `Attribute.__init__`: fails for ids outside `LOBBY_PROPERTIES`; otherwise the
typed value is `lookup[value.strip("\x00 ")[::-1]]` — strip null/space padding
(both ends, Python `strip`), reverse, and look the key up in the per-id table. -/
def Attribute.init (table : AttrTable) (header attr_id player : Int) (value : String) :
    Except AttrError Attribute :=
  match List.lookup attr_id table with
  | none => .error (.unknownAttribute attr_id)
  | some (name, lk) =>
      match List.lookup (pyReverse (pyStrip attrPadChars value)) lk with
      | none => .error (.unknownValue attr_id (pyReverse (pyStrip attrPadChars value)))
      | some v => .ok ⟨header, attr_id, player, name, v⟩

/-- Python `s.rstrip(chars)`: removes padding from the trailing end only. -/
def pyStripTrailing (chars : List Char) (s : String) : String :=
  ⟨(s.data.reverse.dropWhile (· ∈ chars)).reverse⟩

/-- Attribute decoding as the specification sentence words it: strip ONLY the
trailing null/space padding, then reverse, then look up. Written for comparison
with `Attribute.init`, which follows the source (`str.strip` removes padding
from both ends). -/
def Attribute.initSpec (table : AttrTable) (header attr_id player : Int) (value : String) :
    Except AttrError Attribute :=
  match List.lookup attr_id table with
  | none => .error (.unknownAttribute attr_id)
  | some (name, lk) =>
      match List.lookup (pyReverse (pyStripTrailing attrPadChars value)) lk with
      | none => .error (.unknownValue attr_id (pyReverse (pyStripTrailing attrPadChars value)))
      | some v => .ok ⟨header, attr_id, player, name, v⟩

/-! ### The composed participant state

`Entity.__init__`, `User.__init__` and `Player.__init__` each assign a batch of
attributes on `self`; the classes `Participant(Entity, User, Player)` and
`Computer(Entity, Player)` call them in sequence on the same object. `PState`
is that object's attribute dictionary (restricted to the scalar fields the
claims are about; the `events`/`messages`/`units`/`killed_units` lists, which
start empty and are appended to by a later out-of-scope pass, are omitted). -/

structure PState where
  sid : Int
  handicap : Int
  team_id : Int
  is_human : Bool
  is_observer : Bool
  is_referee : Bool
  toon_handle : Option String
  region : String
  gateway : String
  subregion : Int
  toon_id : Int
  uid : Int
  clan_tag : String
  name : String
  combined_race_levels : Int
  highest_league : Int
  pid : Int
  result : Option String
  team : Option Int
  pick_race : String
  difficulty : String
  play_race : String
  color : ColorData
deriving DecidableEq

/-- The blank object state before any `__init__` has run. -/
def pstate0 : PState :=
  { sid := 0, handicap := 0, team_id := 0, is_human := false, is_observer := false,
    is_referee := false, toon_handle := none, region := "", gateway := "",
    subregion := 0, toon_id := 0, uid := 0, clan_tag := "", name := "",
    combined_race_levels := 0, highest_league := 0, pid := 0, result := none,
    team := none, pick_race := "", difficulty := "", play_race := "",
    color := ⟨0, 0, 0, 0⟩ }

inductive InitError where
  /-- The `KeyError` raised by `GATEWAY_LOOKUP[...]` for an id outside the table. -/
  | unknownGateway (id : Int)
  /-- The `IndexError`/`ValueError` raised when the account handle does not split
  into enough parts or a part is not an integer literal. -/
  | malformedHandle (handle : String)
deriving DecidableEq

/-- The `or` fallback in `toon_handle = self.toon_handle or "0-S2-0-0"`:
Python `None` and the empty string are both falsy. -/
def effectiveHandle : Option String → String
  | none => "0-S2-0-0"
  | some s => if s = "" then "0-S2-0-0" else s

/-- `Entity.__init__(sid, slot_data)` over the external `GATEWAY_LOOKUP` table:
copies the slot fields, substitutes the placeholder for a missing/empty account
handle, splits the handle on `-` and resolves parts 0, 2, 3 as region (via the
gateway table), subregion and toon id. -/
def Entity.assign (gatewayTable : List (Int × String)) (sid : Int) (slot : SlotData)
    (st : PState) : Except InitError PState :=
  let handle := effectiveHandle slot.toon_handle
  let parts := pySplit '-' handle
  match parts.get? 0, parts.get? 2, parts.get? 3 with
  | some p0, some p2, some p3 =>
      match pyInt p0, pyInt p2, pyInt p3 with
      | some g, some sub, some tid =>
          match List.lookup g gatewayTable with
          | none => .error (.unknownGateway g)
          | some region =>
              .ok { st with
                sid := sid,
                handicap := slot.handicap,
                team_id := slot.team_id + 1,
                is_human := slot.control == 2,
                is_observer := slot.observe != 0,
                is_referee := slot.observe == 2,
                toon_handle := slot.toon_handle,
                region := region,
                gateway := region,
                subregion := sub,
                toon_id := tid }
      | _, _, _ => .error (.malformedHandle handle)
  | _, _, _ => .error (.malformedHandle handle)

/-- `User.__init__(uid, init_data)`: copies the account fields. -/
def User.assign (uid : Int) (idata : InitData) (st : PState) : PState :=
  { st with
    uid := uid,
    clan_tag := idata.clan_tag,
    name := idata.name,
    combined_race_levels := idata.combined_race_levels,
    highest_league := idata.highest_league }

/-- The batch of attribute assignments performed by `Player.__init__` once the
gateway lookup has produced `region`. -/
def Player.fields (localizedRaces : List (String × String)) (pid : Int)
    (detail : DetailData) (attribute_data : List (String × String))
    (region : String) (st : PState) : PState :=
  { st with
    pid := pid,
    result := if detail.result = 1 then some "Win"
              else if detail.result = 2 then some "Loss" else none,
    team := none,
    pick_race := (List.lookup "Race" attribute_data).getD "Unknown",
    difficulty := (List.lookup "Difficulty" attribute_data).getD "Unknown",
    play_race := (List.lookup detail.race localizedRaces).getD detail.race,
    color := detail.color,
    region := region,
    gateway := region,
    subregion := detail.bnet.subregion,
    toon_id := detail.bnet.uid }

/-- `Player.__init__(pid, detail_data, attribute_data)` over the external
`GATEWAY_LOOKUP` and `LOCALIZED_RACES` tables: result code mapping
(1 → "Win", 2 → "Loss", otherwise the initial `None` stands), race resolution,
and the Battle.net identity fields taken from `detail_data.bnet`. -/
def Player.assign (gatewayTable : List (Int × String))
    (localizedRaces : List (String × String)) (pid : Int) (detail : DetailData)
    (attribute_data : List (String × String)) (st : PState) : Except InitError PState :=
  match List.lookup detail.bnet.gateway gatewayTable with
  | none => .error (.unknownGateway detail.bnet.gateway)
  | some region => .ok (Player.fields localizedRaces pid detail attribute_data region st)

/-- `Participant.__init__`: `Entity.__init__`, then `User.__init__`, then
`Player.__init__`, in that order, on the same object. -/
def Participant.init (gatewayTable : List (Int × String))
    (localizedRaces : List (String × String)) (sid : Int) (slot : SlotData)
    (uid : Int) (idata : InitData) (pid : Int) (detail : DetailData)
    (attribute_data : List (String × String)) : Except InitError PState :=
  match Entity.assign gatewayTable sid slot pstate0 with
  | .error e => .error e
  | .ok st => Player.assign gatewayTable localizedRaces pid detail attribute_data
      (User.assign uid idata st)

/-- `Computer.__init__`: `Entity.__init__`, then `Player.__init__`, then the
auto-generated name from the detail record. -/
def Computer.init (gatewayTable : List (Int × String))
    (localizedRaces : List (String × String)) (sid : Int) (slot : SlotData)
    (pid : Int) (detail : DetailData) (attribute_data : List (String × String)) :
    Except InitError PState :=
  match Entity.assign gatewayTable sid slot pstate0 with
  | .error e => .error e
  | .ok st =>
      match Player.assign gatewayTable localizedRaces pid detail attribute_data st with
      | .error e => .error e
      | .ok st2 => .ok { st2 with name := detail.name }

/-- `User.url`: `URL_TEMPLATE.format(**self.__dict__)` with
`URL_TEMPLATE = "http://" + region + ".battle.net/sc2/en/profile/" + toon_id +
"/" + subregion + "/" + name + "/"` (spelled with format placeholders in the
source). -/
def PState.url (st : PState) : String :=
  "http://" ++ st.region ++ ".battle.net/sc2/en/profile/" ++ toString st.toon_id ++
    "/" ++ toString st.subregion ++ "/" ++ st.name ++ "/"

/-! ### Team (objects.py `Team`) -/

structure Team where
  number : Int
  players : List PState
  result : String
deriving DecidableEq

/-- `Team.__init__(number)`. -/
def Team.init (number : Int) : Team := ⟨number, [], "Unknown"⟩

/-- `p.play_race[0].upper()` for one member. -/
def raceInitial (race : String) : Char := (race.get 0).toUpper

/-- `Team.lineup`: `''.join(sorted(p.play_race[0].upper() for p in self.players))`.
`none` models the `IndexError` of `play_race[0]` on an empty race string. -/
def Team.lineup (t : Team) : Option String :=
  if t.players.all (fun p => !p.play_race.isEmpty) then
    some ⟨sortChars (t.players.map (fun p => raceInitial p.play_race))⟩
  else none

/-- The string `','.join(sorted(p.url for p in self.players))` that `Team.hash`
feeds to the digest. -/
def Team.rawHash (t : Team) : String :=
  String.intercalate "," (sortStrings (t.players.map PState.url))

/-- `Team.hash`: `hashlib.sha256(raw_hash).hexdigest()`, with the external
`hashlib` digest supplied as the parameter `sha256hex`. -/
def Team.hash (sha256hex : String → String) (t : Team) : String :=
  sha256hex (Team.rawHash t)

/-! ### Graph (objects.py `Graph`, the spec's ScoreSeries) -/

structure Graph where
  times : List Int
  values : List Int
deriving DecidableEq

/-- `Graph.__init__(x, y, xy_list=None)`: when `xy_list` is truthy (not `None`
and non-empty — Python truthiness), the pairs are split into the two lists;
otherwise `times`/`values` are the `x`/`y` arguments as given. -/
def Graph.init (x y : List Int) (xy_list : Option (List (Int × Int))) : Graph :=
  match xy_list with
  | some l =>
      if l.isEmpty then { times := x, values := y }
      else { times := l.map Prod.fst, values := l.map Prod.snd }
  | none => { times := x, values := y }

/-- `Graph.as_points`: `zip(self.times, self.values)` (truncates at the shorter
list, as Python `zip` does). -/
def Graph.as_points (g : Graph) : List (Int × Int) := g.times.zip g.values

/-- Modelled from the spec: the `from_samples` construction path of §4.5
(`ScoreSeries.from_samples(pairs)`) is not in `src/`; per the spec it hands the
ordered pair sequence to the constructor as `xy_list` (with empty parallel
sequences for the positional arguments). -/
def Graph.from_samples (pairs : List (Int × Int)) : Graph :=
  Graph.init [] [] (some pairs)

/-- Modelled from the spec: the `from_parallel` construction path of §4.5
(`ScoreSeries.from_parallel(times, values)`) is not in `src/`; per the spec it
hands the two pre-split ordered sequences to the constructor positionally, with
no `xy_list`. -/
def Graph.from_parallel (times values : List Int) : Graph :=
  Graph.init times values none

/-! ### Helper lemmas on the composed initializers -/

theorem playerAssign_ok {gatewayTable : List (Int × String)}
    {localizedRaces : List (String × String)} {pid : Int} {detail : DetailData}
    {attribute_data : List (String × String)} {st p : PState}
    (h : Player.assign gatewayTable localizedRaces pid detail attribute_data st = .ok p) :
    ∃ region, List.lookup detail.bnet.gateway gatewayTable = some region ∧
      p = Player.fields localizedRaces pid detail attribute_data region st := by
  unfold Player.assign at h
  split at h
  · exact Except.noConfusion h
  · rename_i region hg
    injection h with h
    exact ⟨region, hg, h.symm⟩

theorem entityAssign_ok {gatewayTable : List (Int × String)} {sid : Int}
    {slot : SlotData} {st e : PState}
    (h : Entity.assign gatewayTable sid slot st = .ok e) :
    e.team_id = slot.team_id + 1 ∧ e.team = st.team ∧ e.result = st.result := by
  simp only [Entity.assign] at h
  repeat' split at h
  all_goals first
    | exact Except.noConfusion h
    | (injection h with h; subst h; exact ⟨rfl, rfl, rfl⟩)

/-! ### Concrete fixtures used by counterexamples and witnesses -/

def glT : List (Int × String) := [(0, ""), (1, "us")]

def slotT : SlotData := ⟨100, 0, 2, 0, some "1-S2-1-100"⟩

def idataT : InitData := ⟨"", "Alice", 0, 0⟩

def colorT : ColorData := ⟨255, 0, 0, 0⟩

def bnetT : BnetData := ⟨1, 0, 1, 555⟩

def detailT1 : DetailData := ⟨1, "Zerg", colorT, bnetT, "Alice"⟩

def detailT3 : DetailData := ⟨3, "Zerg", colorT, bnetT, "Alice"⟩

def pT3 : PState := (Participant.init glT [] 1 slotT 1 idataT 1 detailT3 []).toOption.getD pstate0

def pT1 : PState :=
  (Participant.init glT [] 1 slotT 1 idataT 1 detailT1 []).toOption.getD pstate0

def qT1 : PState :=
  (Computer.init glT [] 1 slotT 1 detailT1 []).toOption.getD pstate0

def attrTableT : AttrTable := [(1, ("Race", [("ba", "Zerg")]))]

/-! ### C4 -/

/-- C4: for every attribute id absent from the master attribute table, decoding
fails with the unknown-attribute error identifying the offending id, and never
returns a decoded value. -/
theorem C4_unknown_attribute {table : AttrTable} {header attr_id player : Int}
    {value : String} (h : List.lookup attr_id table = none) :
    Attribute.init table header attr_id player value = .error (.unknownAttribute attr_id) := by
  simp only [Attribute.init, h]

theorem C4_unknown_attribute_witness :
    Attribute.init [] 0 5 0 "xx" = .error (.unknownAttribute 5) :=
  C4_unknown_attribute rfl

/-! ### C3 -/

/-- C3 counterexample: the claim says decoding strips ONLY the trailing
null/space padding, but the source's `value.strip("\x00 ")` strips both ends.
On the buffer `"\x00ab"` (leading null padding) the source decodes key `"ba"`
and succeeds, while the claimed trailing-only algorithm would use key
`"ba\x00"` and fail. -/
theorem C3_counterexample :
    Attribute.init attrTableT 0 1 0 "\x00ab" = .ok ⟨0, 1, 0, "Race", "Zerg"⟩ ∧
    Attribute.initSpec attrTableT 0 1 0 "\x00ab" = .error (.unknownValue 1 "ba\x00") ∧
    Attribute.init attrTableT 0 1 0 "\x00ab" ≠ Attribute.initSpec attrTableT 0 1 0 "\x00ab" := by
  refine ⟨rfl, rfl, ?_⟩
  intro h
  rw [show Attribute.init attrTableT 0 1 0 "\x00ab" = .ok ⟨0, 1, 0, "Race", "Zerg"⟩ from rfl,
      show Attribute.initSpec attrTableT 0 1 0 "\x00ab"
        = .error (.unknownValue 1 "ba\x00") from rfl] at h
  exact Except.noConfusion h

/-- C3 (amended): for every attribute id present in the master table and every
raw value buffer, decoding strips the null/space padding from BOTH ends of the
raw value (Python `str.strip`), reverses the byte order of the remaining
content, and uses the reversed string as the key into that attribute's value
lookup table to produce the typed value. -/
theorem C3_attribute_decode {table : AttrTable} {header attr_id player : Int}
    {value : String} {name : String} {lk : List (String × String)} {tv : String}
    (hid : List.lookup attr_id table = some (name, lk))
    (hv : List.lookup (pyReverse (pyStrip attrPadChars value)) lk = some tv) :
    Attribute.init table header attr_id player value = .ok ⟨header, attr_id, player, name, tv⟩ := by
  simp only [Attribute.init, hid, hv]

theorem C3_attribute_decode_witness :
    Attribute.init attrTableT 7 1 9 "ab\x00 " = .ok ⟨7, 1, 9, "Race", "Zerg"⟩ :=
  C3_attribute_decode rfl rfl

/-! ### C1 -/

/-- C1 counterexample: the claim says every result code other than 1 and 2 maps
to the outcome string "Unknown"; on result code 3 the source leaves the
player's result as `None` (no outcome string), not `"Unknown"`. -/
theorem C1_counterexample :
    (Participant.init glT [] 1 slotT 1 idataT 1 detailT3 []).toOption.map PState.result
      = some none ∧ some (none : Option String) ≠ some (some "Unknown") :=
  ⟨rfl, by decide⟩

/-- C1 (amended): for every detail record, the composed participant's outcome
is determined by the fixed mapping on the numeric result code: 1 maps to
`"Win"`, 2 maps to `"Loss"`, and every other code leaves the outcome unset
(`None`), not `"Unknown"`. -/
theorem C1_result_code_mapping (gatewayTable : List (Int × String))
    (localizedRaces : List (String × String)) (sid : Int) (slot : SlotData)
    (uid : Int) (idata : InitData) (pid : Int) (detail : DetailData)
    (attribute_data : List (String × String)) (p : PState)
    (h : Participant.init gatewayTable localizedRaces sid slot uid idata pid detail
      attribute_data = .ok p) :
    p.result = if detail.result = 1 then some "Win"
               else if detail.result = 2 then some "Loss" else none := by
  unfold Participant.init at h
  split at h
  · exact Except.noConfusion h
  · obtain ⟨region, -, hpe⟩ := playerAssign_ok h
    subst hpe
    rfl

theorem C1_result_code_mapping_witness :
    pT3.result = if detailT3.result = 1 then some "Win"
                 else if detailT3.result = 2 then some "Loss" else none :=
  C1_result_code_mapping glT [] 1 slotT 1 idataT 1 detailT3 [] pT3 (by rfl)

/-! ### C2 -/

theorem perm_all_eq {α : Type} {l₁ l₂ : List α} (h : l₁.Perm l₂) (f : α → Bool) :
    l₁.all f = l₂.all f := by
  rw [Bool.eq_iff_iff]
  simp only [List.all_eq_true]
  exact ⟨fun hf x hx => hf x (h.mem_iff.mpr hx), fun hf x hx => hf x (h.mem_iff.mp hx)⟩

def pAlice : PState :=
  { pstate0 with
    name := "Alice", region := "us", subregion := 1, toon_id := 1,
    play_race := "Terran" }

def pBob : PState :=
  { pstate0 with
    name := "Bob", region := "us", subregion := 1, toon_id := 2,
    play_race := "Zerg" }

def pCarol : PState :=
  { pstate0 with
    name := "Carol", region := "us", subregion := 1, toon_id := 3,
    play_race := "Protoss" }

def teamABC : Team := ⟨1, [pAlice, pBob, pCarol], "Unknown"⟩

def teamCBA : Team := ⟨1, [pCarol, pBob, pAlice], "Unknown"⟩

/-- C2: a team's hash is the digest (the external `hashlib.sha256(...).hexdigest()`,
supplied as the parameter `sha256hex`) of the lexicographically sorted,
comma-joined member profile URLs; and for any two orders in which the same
members are added to a team, the computed hash is identical. -/
theorem C2_team_hash (sha256hex : String → String) (t₁ t₂ : Team)
    (h : t₁.players.Perm t₂.players) :
    Team.hash sha256hex t₁
      = sha256hex (String.intercalate "," (sortStrings (t₁.players.map PState.url))) ∧
    Team.hash sha256hex t₁ = Team.hash sha256hex t₂ := by
  refine ⟨rfl, ?_⟩
  unfold Team.hash Team.rawHash
  rw [sortStrings_perm_eq (h.map PState.url)]

theorem C2_team_hash_witness :
    Team.hash id teamABC
      = id (String.intercalate "," (sortStrings (teamABC.players.map PState.url))) ∧
    Team.hash id teamABC = Team.hash id teamCBA :=
  C2_team_hash id teamABC teamCBA (by decide)

/-! ### C5 -/

/-- C5: a team's lineup is the sorted concatenation of the members' uppercased
played-race initials, invariant under the order in which players were added; a
team whose members' played races are Terran, Zerg and Protoss (in any insertion
order) yields `"PTZ"`. -/
theorem C5_lineup_sorted (t₁ t₂ : Team) (h : t₁.players.Perm t₂.players) :
    Team.lineup t₁ = Team.lineup t₂ ∧
    ((t₁.players.map PState.play_race).Perm ["Terran", "Zerg", "Protoss"] →
      Team.lineup t₁ = some "PTZ") := by
  constructor
  · unfold Team.lineup
    rw [perm_all_eq h (fun p => !p.play_race.isEmpty),
      sortChars_perm_eq (h.map (fun p => raceInitial p.play_race))]
  · intro hp
    unfold Team.lineup
    have hall : t₁.players.all (fun p => !p.play_race.isEmpty) = true := by
      simp only [List.all_eq_true]
      intro x hx
      have hm : x.play_race ∈ ["Terran", "Zerg", "Protoss"] :=
        hp.mem_iff.mp (List.mem_map_of_mem PState.play_race hx)
      simp only [List.mem_cons, List.not_mem_nil, or_false] at hm
      rcases hm with h | h | h <;> rw [h] <;> rfl
    have hmap : t₁.players.map (fun p => raceInitial p.play_race)
        = (t₁.players.map PState.play_race).map raceInitial :=
      (List.map_map raceInitial PState.play_race t₁.players).symm
    have hsort : sortChars (t₁.players.map (fun p => raceInitial p.play_race))
        = sortChars (["Terran", "Zerg", "Protoss"].map raceInitial) := by
      rw [hmap]
      exact sortChars_perm_eq (hp.map raceInitial)
    rw [hall, if_pos rfl, hsort]
    rfl

theorem C5_lineup_sorted_witness :
    Team.lineup teamABC = Team.lineup teamCBA ∧ Team.lineup teamABC = some "PTZ" :=
  ⟨(C5_lineup_sorted teamABC teamCBA (by decide)).1,
   (C5_lineup_sorted teamABC teamCBA (by decide)).2 (by decide)⟩

/-! ### C6 -/

theorem Entity.assign_placeholder (gatewayTable : List (Int × String)) (sid : Int)
    (slot : SlotData) (r : String)
    (hh : effectiveHandle slot.toon_handle = "0-S2-0-0")
    (hr : List.lookup (0 : Int) gatewayTable = some r) :
    Entity.assign gatewayTable sid slot pstate0
      = .ok { pstate0 with
          sid := sid, handicap := slot.handicap, team_id := slot.team_id + 1,
          is_human := slot.control == 2, is_observer := slot.observe != 0,
          is_referee := slot.observe == 2, toon_handle := slot.toon_handle,
          region := r, gateway := r, subregion := 0, toon_id := 0 } := by
  have step : Entity.assign gatewayTable sid slot pstate0
      = match List.lookup (0 : Int) gatewayTable with
        | none => Except.error (InitError.unknownGateway 0)
        | some region =>
            Except.ok { pstate0 with
              sid := sid, handicap := slot.handicap, team_id := slot.team_id + 1,
              is_human := slot.control == 2, is_observer := slot.observe != 0,
              is_referee := slot.observe == 2, toon_handle := slot.toon_handle,
              region := region, gateway := region, subregion := 0, toon_id := 0 } := by
    simp only [Entity.assign, hh]
    rfl
  rw [step, hr]

/-- C6: parsing an empty or missing account-handle string does not fail: the
handle is replaced by the placeholder `"0-S2-0-0"` before parsing, so the
resulting region is the gateway-table entry for id 0, the subregion is 0 and
the account id is 0 — identical to parsing the literal string `"0-S2-0-0"`. -/
theorem C6_empty_handle (gatewayTable : List (Int × String)) (sid : Int)
    (slot : SlotData) (r : String)
    (h : slot.toon_handle = none ∨ slot.toon_handle = some "")
    (hr : List.lookup (0 : Int) gatewayTable = some r) :
    (Entity.assign gatewayTable sid slot pstate0).map
        (fun e => (e.region, e.subregion, e.toon_id))
      = (Entity.assign gatewayTable sid { slot with toon_handle := some "0-S2-0-0" }
          pstate0).map (fun e => (e.region, e.subregion, e.toon_id)) ∧
    (Entity.assign gatewayTable sid slot pstate0).map
        (fun e => (e.region, e.subregion, e.toon_id)) = .ok (r, 0, 0) := by
  have hh : effectiveHandle slot.toon_handle = "0-S2-0-0" := by
    rcases h with h | h <;> rw [h] <;> rfl
  rw [Entity.assign_placeholder gatewayTable sid slot r hh hr,
    Entity.assign_placeholder gatewayTable sid { slot with toon_handle := some "0-S2-0-0" }
      r rfl hr]
  exact ⟨rfl, rfl⟩

def slotNoHandle : SlotData := ⟨100, 0, 2, 0, none⟩

theorem C6_empty_handle_witness :
    (Entity.assign glT 1 slotNoHandle pstate0).map
        (fun e => (e.region, e.subregion, e.toon_id))
      = (Entity.assign glT 1 { slotNoHandle with toon_handle := some "0-S2-0-0" }
          pstate0).map (fun e => (e.region, e.subregion, e.toon_id)) ∧
    (Entity.assign glT 1 slotNoHandle pstate0).map
        (fun e => (e.region, e.subregion, e.toon_id)) = .ok ("", 0, 0) :=
  C6_empty_handle glT 1 slotNoHandle "" (Or.inl rfl) rfl

/-! ### C7 -/

/-- C7 counterexample: the claim says the composed Participant's `team` equals
`slot.team_id + 1`; in the source `Player.__init__` sets `self.team = None`
(the `Team` reference is linked later), so right after composition `team` is
`None`, not a number — the one-based team number lives in `team_id`. -/
theorem C7_counterexample :
    (Participant.init glT [] 1 slotT 1 idataT 1 detailT1 []).toOption.map PState.team
      = some none ∧
    some (none : Option Int) ≠ some (some (slotT.team_id + 1)) :=
  ⟨rfl, by decide⟩

/-- C7 (amended): for all valid (slot, account, detail+attributes) triples,
composition produces a Participant whose `team_id` equals `slot.team_id + 1`
(slot data is zero-based, the domain model one-based), while its `team`
reference is still `None` right after composition. -/
theorem C7_team_number (gatewayTable : List (Int × String))
    (localizedRaces : List (String × String)) (sid : Int) (slot : SlotData)
    (uid : Int) (idata : InitData) (pid : Int) (detail : DetailData)
    (attribute_data : List (String × String)) (p : PState)
    (h : Participant.init gatewayTable localizedRaces sid slot uid idata pid detail
      attribute_data = .ok p) :
    p.team_id = slot.team_id + 1 ∧ p.team = none := by
  unfold Participant.init at h
  split at h
  · exact Except.noConfusion h
  · rename_i st hst
    obtain ⟨region, -, hpe⟩ := playerAssign_ok h
    subst hpe
    constructor
    · exact (entityAssign_ok hst).1
    · rfl

theorem C7_team_number_witness :
    pT1.team_id = slotT.team_id + 1 ∧ pT1.team = none :=
  C7_team_number glT [] 1 slotT 1 idataT 1 detailT1 [] pT1 (by rfl)

/-! ### C8 -/

/-- C8: the two ScoreSeries construction paths are equivalent: for every list of
(time, value) pairs, building from the paired sequence and building from the two
pre-split parallel sequences yield equal internal state, and `as_points` on
either yields the same list of pairs (the embedding is pure, so repeated calls
trivially agree); in particular the two constructions of `[(0,10),(5,20)]` both
yield `[(0,10),(5,20)]`. -/
theorem C8_score_series_paths (pairs : List (Int × Int)) :
    Graph.from_samples pairs
      = Graph.from_parallel (pairs.map Prod.fst) (pairs.map Prod.snd) ∧
    (Graph.from_samples pairs).as_points = pairs ∧
    (Graph.from_samples [(0, 10), (5, 20)]).as_points = [(0, 10), (5, 20)] ∧
    (Graph.from_parallel [0, 5] [10, 20]).as_points = [(0, 10), (5, 20)] := by
  refine ⟨?_, ?_, rfl, rfl⟩
  · cases pairs <;> rfl
  · cases pairs with
    | nil => rfl
    | cons a l =>
      rw [show (Graph.from_samples (a :: l)).as_points
          = ((a :: l).map Prod.fst).zip ((a :: l).map Prod.snd) from rfl,
        List.zip_map']
      simp

/-! ### C9 -/

/-- C9 counterexample: the claim says times and values always have equal length
for parallel sequences of any lengths; the constructor stores mismatched
parallel sequences as they are, so `from_parallel [0] [10, 20]` has a times
sequence of length 1 and a values sequence of length 2. -/
theorem C9_counterexample :
    (Graph.from_parallel [0] [10, 20]).times.length = 1 ∧
    (Graph.from_parallel [0] [10, 20]).values.length = 2 ∧ (1 : Nat) ≠ 2 :=
  ⟨rfl, rfl, by decide⟩

/-- C9 (amended): a ScoreSeries built from paired samples always has times and
values of equal length; one built from two parallel sequences stores them
unchecked, so its times and values have equal length exactly when the two input
sequences do. -/
theorem C9_lengths (pairs : List (Int × Int)) (x y : List Int) :
    (Graph.from_samples pairs).times.length = (Graph.from_samples pairs).values.length ∧
    (Graph.from_parallel x y).times = x ∧
    (Graph.from_parallel x y).values = y ∧
    ((Graph.from_parallel x y).times.length = (Graph.from_parallel x y).values.length ↔
      x.length = y.length) := by
  refine ⟨?_, rfl, rfl, Iff.rfl⟩
  cases pairs with
  | nil => rfl
  | cons a l => simp [Graph.from_samples, Graph.init]

/-! ### C10 -/

/-- C10: for every full Participant and every Computer, the final `region`,
`gateway`, `subregion` and `toon_id` equal the values derived from the detail
record's Battle.net tuple — `Player.__init__` runs after `Entity.__init__` and
overwrites the values parsed from the slot's account handle — and consequently
the profile URL is built from the detail record's account id (and the account
record's name), not the handle's. -/
theorem C10_detail_identity (gatewayTable : List (Int × String))
    (localizedRaces : List (String × String)) (sid : Int) (slot : SlotData)
    (uid : Int) (idata : InitData) (pid : Int) (detail : DetailData)
    (attribute_data : List (String × String)) (p q : PState)
    (hp : Participant.init gatewayTable localizedRaces sid slot uid idata pid detail
      attribute_data = .ok p)
    (hq : Computer.init gatewayTable localizedRaces sid slot pid detail
      attribute_data = .ok q) :
    List.lookup detail.bnet.gateway gatewayTable = some p.region ∧
    p.gateway = p.region ∧
    p.subregion = detail.bnet.subregion ∧
    p.toon_id = detail.bnet.uid ∧
    p.name = idata.name ∧
    PState.url p = "http://" ++ p.region ++ ".battle.net/sc2/en/profile/"
      ++ toString detail.bnet.uid ++ "/" ++ toString detail.bnet.subregion ++ "/"
      ++ idata.name ++ "/" ∧
    q.region = p.region ∧ q.gateway = p.region ∧
    q.subregion = detail.bnet.subregion ∧ q.toon_id = detail.bnet.uid := by
  unfold Participant.init at hp
  split at hp
  · exact Except.noConfusion hp
  · obtain ⟨r1, hg, hpe⟩ := playerAssign_ok hp
    subst hpe
    unfold Computer.init at hq
    split at hq
    · exact Except.noConfusion hq
    · split at hq
      · exact Except.noConfusion hq
      · rename_i st2 hst2
        obtain ⟨r2, hg2, hqe⟩ := playerAssign_ok hst2
        subst hqe
        injection hq with hq
        subst hq
        have hsr : r2 = r1 := by
          rw [hg] at hg2
          exact (Option.some.inj hg2).symm
        subst hsr
        exact ⟨hg, rfl, rfl, rfl, rfl, rfl, rfl, rfl, rfl, rfl⟩

theorem C10_detail_identity_witness :
    List.lookup detailT1.bnet.gateway glT = some pT1.region ∧
    pT1.gateway = pT1.region ∧
    pT1.subregion = detailT1.bnet.subregion ∧
    pT1.toon_id = detailT1.bnet.uid ∧
    pT1.name = idataT.name ∧
    PState.url pT1 = "http://" ++ pT1.region ++ ".battle.net/sc2/en/profile/"
      ++ toString detailT1.bnet.uid ++ "/" ++ toString detailT1.bnet.subregion ++ "/"
      ++ idataT.name ++ "/" ∧
    qT1.region = pT1.region ∧ qT1.gateway = pT1.region ∧
    qT1.subregion = detailT1.bnet.subregion ∧ qT1.toon_id = detailT1.bnet.uid :=
  C10_detail_identity glT [] 1 slotT 1 idataT 1 detailT1 [] pT1 qT1 (by rfl) (by rfl)
